import Mathlib

/-!
Verification of the student API endpoint of the Django-learning repository.
The source under verification is `api/views.py`: a single handler
`studentsView`, declared via `@api_view(['GET','POST'])`, that on GET lists
and serializes all persisted Student records and responds 200, and on POST
validates the request body with `StudentSerializer`, persists on success
(responding 201 with the serialized created record) or responds 400 with the
per-field error object.  The `Student` model and `StudentSerializer`
themselves are not among the sources, so they are modelled from the spec.
-/

/-- Modelled from the spec: a persisted `Student` record
(`students/models.py` is not among the sources): a generated identifier plus
the minimal plausible scalar field set the spec chooses, a `name`. -/
structure Student where
  id : Nat
  name : String
  deriving DecidableEq

/-- A scalar value appearing in structured key/value wire data. -/
inductive WireValue where
  | str (s : String)
  | num (n : Int)
  | null
  deriving DecidableEq

/-- Structured key/value wire data: a request body. -/
abbrev WireData := List (String × WireValue)

/-- First value bound to key `k` in the wire data, if any. -/
def lookupField (k : String) (d : WireData) : Option WireValue :=
  match d with
  | [] => none
  | (k1, v) :: rest => if k1 = k then some v else lookupField k rest

/-- The field set bound by a successful validation: every `Student` field
except the generated identifier. -/
structure StudentFields where
  name : String
  deriving DecidableEq

/-- A structured per-field error object: field name to error messages. -/
abbrev FieldErrors := List (String × List String)

/-- Modelled from the spec: the validation step of `StudentSerializer`
(`api/serializers.py` is not among the sources), the spec's
`validateAndBind`: checks presence and type of the required field `name` and
returns either the bound field set or a per-field error object, never
raising. -/
def validateAndBind (d : WireData) : Except FieldErrors StudentFields :=
  match lookupField "name" d with
  | some (WireValue.str s) => Except.ok { name := s }
  | some _ => Except.error [("name", ["Not a valid string."])]
  | none => Except.error [("name", ["This field is required."])]

/-- A serialized Student record: the wire-format projection of its fields. -/
structure SerStudent where
  id : Nat
  name : String
  deriving DecidableEq

/-- Modelled from the spec: `serialize` of `StudentSerializer`: a
deterministic, lossless mapping from record fields to the wire shape. -/
def serialize (s : Student) : SerStudent :=
  { id := s.id, name := s.name }

/-- Modelled from the spec: `serializeMany` (`StudentSerializer` with
`many=True`): serializes each record of the sequence. -/
def serializeMany (ss : List Student) : List SerStudent :=
  ss.map serialize

/-- Modelled from the spec: the relational store backing the `Student`
model: the persisted records plus the generator for the next identifier. -/
structure Store where
  nextId : Nat
  students : List Student
  deriving DecidableEq

/-- The store with zero persisted records. -/
def Store.empty : Store :=
  { nextId := 1, students := [] }

/-- Modelled from the spec: Data Access `listAll()`
(`Student.objects.all()`): the sequence of all persisted records. -/
def listAll (db : Store) : List Student :=
  db.students

/-- Modelled from the spec: Data Access `create` (`serializer.save()`):
persists a new record carrying the generated identifier and returns it
together with the updated store. -/
def create (f : StudentFields) (db : Store) : Student × Store :=
  let s : Student := { id := db.nextId, name := f.name }
  (s, { nextId := db.nextId + 1, students := db.students ++ [s] })

/-- A response body: a serialized sequence (GET), a single serialized
record (POST success), or a per-field error object (POST failure). -/
inductive Body where
  | records (l : List SerStudent)
  | record (r : SerStudent)
  | errors (e : FieldErrors)
  deriving DecidableEq

/-- An HTTP response: status code and structured body. -/
structure Response where
  status : Nat
  body : Body
  deriving DecidableEq

/-- An HTTP request as the handler sees it: method and parsed body. -/
structure Request where
  method : String
  data : WireData
  deriving DecidableEq

/-- The accepted method list declared by the `@api_view` decorator on
`studentsView` in `api/views.py`. -/
def api_view_methods : List String :=
  ["GET", "POST"]

/-- The status constants of `rest_framework.status` used in `api/views.py`. -/
def HTTP_200_OK : Nat := 200

/-- Status constant for a created resource. -/
def HTTP_201_CREATED : Nat := 201

/-- Status constant for a rejected request body. -/
def HTTP_400_BAD_REQUEST : Nat := 400

/-- The body of `studentsView` in `api/views.py`, embedded over explicit
store state.  On GET it queries all records, serializes them with
`many=True` and responds 200; on POST it validates the request data,
persists and responds 201 with the serialized created record when valid,
else responds 400 with the error object; on any other method the
conditional chain falls through and no response value is produced. -/
def studentsView (req : Request) (db : Store) : Option Response × Store :=
  if req.method = "GET" then
    (some { status := HTTP_200_OK, body := Body.records (serializeMany (listAll db)) }, db)
  else if req.method = "POST" then
    match validateAndBind req.data with
    | Except.ok f =>
      let r := create f db
      (some { status := HTTP_201_CREATED, body := Body.record (serialize r.1) }, r.2)
    | Except.error e =>
      (some { status := HTTP_400_BAD_REQUEST, body := Body.errors e }, db)
  else
    (none, db)

/-- C1: for every GET request, `studentsView` retrieves all persisted
Student records, serializes them as a sequence, and returns a response with
status 200 whose body is that serialized sequence, leaving the store as it
was. -/
theorem studentsView_get (d : WireData) (db : Store) :
    studentsView { method := "GET", data := d } db =
      (some { status := 200, body := Body.records (serializeMany (listAll db)) }, db) := by
  simp [studentsView, HTTP_200_OK]

/-- C2: for every POST request, when the body is a valid field set the
handler persists a new record and responds 201 with the serialized created
record; when it is invalid it responds 400 with the structured per-field
error object — in both cases a response is returned, no exception. -/
theorem studentsView_post (d : WireData) (db : Store) :
    (∀ f, validateAndBind d = Except.ok f →
      studentsView { method := "POST", data := d } db =
        (some { status := 201, body := Body.record (serialize (create f db).1) },
         (create f db).2)) ∧
    (∀ e, validateAndBind d = Except.error e →
      studentsView { method := "POST", data := d } db =
        (some { status := 400, body := Body.errors e }, db)) := by
  constructor <;> intro x h <;>
    simp [studentsView, h, HTTP_201_CREATED, HTTP_400_BAD_REQUEST]

/-- Witness for C2: a concrete valid POST creates and answers 201. -/
theorem studentsView_post_witness :
    studentsView { method := "POST", data := [("name", WireValue.str "Ada")] } Store.empty =
      (some { status := 201,
              body := Body.record (serialize (create { name := "Ada" } Store.empty).1) },
       (create { name := "Ada" } Store.empty).2) :=
  (studentsView_post [("name", WireValue.str "Ada")] Store.empty).1 { name := "Ada" } rfl

/-- C3: for every valid field set submitted via POST, the record in the 201
response carries exactly the submitted fields, and a GET performed on the
resulting store returns a 200 whose sequence includes that record. -/
theorem studentsView_create_then_list (d : WireData) (db : Store)
    (f : StudentFields) (h : validateAndBind d = Except.ok f) :
    ∃ r : SerStudent,
      (studentsView { method := "POST", data := d } db).1 =
        some { status := 201, body := Body.record r } ∧
      r.name = f.name ∧
      ∀ d2 : WireData, ∃ l : List SerStudent,
        studentsView { method := "GET", data := d2 }
            (studentsView { method := "POST", data := d } db).2 =
          (some { status := 200, body := Body.records l },
           (studentsView { method := "POST", data := d } db).2) ∧
        r ∈ l := by
  refine ⟨serialize (create f db).1, ?_, rfl, ?_⟩
  · simp [studentsView, h, HTTP_201_CREATED]
  · intro d2
    refine ⟨serializeMany (listAll (studentsView { method := "POST", data := d } db).2),
      studentsView_get d2 _, ?_⟩
    simp [studentsView, h, create, listAll, serializeMany]

/-- Witness for C3: the concrete valid POST of C2's scenario. -/
theorem studentsView_create_then_list_witness :
    ∃ r : SerStudent,
      (studentsView { method := "POST", data := [("name", WireValue.str "Ada")] }
          Store.empty).1 =
        some { status := 201, body := Body.record r } ∧
      r.name = ({ name := "Ada" } : StudentFields).name ∧
      ∀ d2 : WireData, ∃ l : List SerStudent,
        studentsView { method := "GET", data := d2 }
            (studentsView { method := "POST", data := [("name", WireValue.str "Ada")] }
              Store.empty).2 =
          (some { status := 200, body := Body.records l },
           (studentsView { method := "POST", data := [("name", WireValue.str "Ada")] }
             Store.empty).2) ∧
        r ∈ l :=
  studentsView_create_then_list [("name", WireValue.str "Ada")] Store.empty
    { name := "Ada" } rfl

/-- C4: for every POST whose body lacks the required field `name`, the
response has status 400, its body is the error object keyed by the missing
field's name, and the store is unchanged. -/
theorem studentsView_post_missing_name (d : WireData) (db : Store)
    (h : lookupField "name" d = none) :
    studentsView { method := "POST", data := d } db =
      (some { status := 400,
              body := Body.errors [("name", ["This field is required."])] }, db) := by
  simp [studentsView, validateAndBind, h, HTTP_400_BAD_REQUEST]

/-- Witness for C4: the spec's scenario POST of an empty body. -/
theorem studentsView_post_missing_name_witness :
    studentsView { method := "POST", data := [] } Store.empty =
      (some { status := 400,
              body := Body.errors [("name", ["This field is required."])] }, Store.empty) :=
  studentsView_post_missing_name [] Store.empty (by decide)

/-- C5: for every structured key/value input, `validateAndBind` returns
either a bound field set or a per-field error object, and the POST branch of
the handler therefore always produces one of its two responses. -/
theorem validateAndBind_total (d : WireData) (db : Store) :
    ((∃ f, validateAndBind d = Except.ok f) ∨
       (∃ e, validateAndBind d = Except.error e)) ∧
    ((studentsView { method := "POST", data := d } db).1).isSome := by
  constructor
  · cases hv : validateAndBind d with
    | ok f => exact Or.inl ⟨f, rfl⟩
    | error e => exact Or.inr ⟨e, rfl⟩
  · cases hv : validateAndBind d <;> simp [studentsView, hv]

/-- C6: when zero Student records are persisted, a GET request returns
status 200 with the empty sequence as body and leaves the store unchanged. -/
theorem studentsView_get_empty (d : WireData) (db : Store)
    (h : listAll db = []) :
    studentsView { method := "GET", data := d } db =
      (some { status := 200, body := Body.records [] }, db) := by
  simp [studentsView, HTTP_200_OK, serializeMany, h]

/-- Witness for C6: GET on the empty store. -/
theorem studentsView_get_empty_witness :
    studentsView { method := "GET", data := [] } Store.empty =
      (some { status := 200, body := Body.records [] }, Store.empty) :=
  studentsView_get_empty [] Store.empty (by decide)

/-- C7: two POSTs with the same valid field set persist two distinct records
with distinct generated identifiers, and the first record, with its
identifier unchanged, is still persisted after the second create. -/
theorem studentsView_double_create (d : WireData) (db : Store)
    (f : StudentFields) (h : validateAndBind d = Except.ok f) :
    (create f db).1.id ≠
        (create f (studentsView { method := "POST", data := d } db).2).1.id ∧
    (create f db).1 ≠
        (create f (studentsView { method := "POST", data := d } db).2).1 ∧
    (create f db).1 ∈
        (studentsView { method := "POST", data := d }
          (studentsView { method := "POST", data := d } db).2).2.students ∧
    (create f (studentsView { method := "POST", data := d } db).2).1 ∈
        (studentsView { method := "POST", data := d }
          (studentsView { method := "POST", data := d } db).2).2.students := by
  have hdb1 : (studentsView { method := "POST", data := d } db).2 = (create f db).2 := by
    simp [studentsView, h]
  rw [hdb1]
  have hne : (create f db).1.id ≠ (create f (create f db).2).1.id := by
    simp [create]
  refine ⟨hne, fun he => hne (by rw [he]), ?_, ?_⟩
  · simp [studentsView, h, create]
  · simp [studentsView, h, create]

/-- Witness for C7: two identical valid POSTs on the empty store. -/
theorem studentsView_double_create_witness :
    (create { name := "Ada" } Store.empty).1.id ≠
        (create { name := "Ada" }
          (studentsView { method := "POST", data := [("name", WireValue.str "Ada")] }
            Store.empty).2).1.id ∧
    (create { name := "Ada" } Store.empty).1 ≠
        (create { name := "Ada" }
          (studentsView { method := "POST", data := [("name", WireValue.str "Ada")] }
            Store.empty).2).1 ∧
    (create { name := "Ada" } Store.empty).1 ∈
        (studentsView { method := "POST", data := [("name", WireValue.str "Ada")] }
          (studentsView { method := "POST", data := [("name", WireValue.str "Ada")] }
            Store.empty).2).2.students ∧
    (create { name := "Ada" }
        (studentsView { method := "POST", data := [("name", WireValue.str "Ada")] }
          Store.empty).2).1 ∈
        (studentsView { method := "POST", data := [("name", WireValue.str "Ada")] }
          (studentsView { method := "POST", data := [("name", WireValue.str "Ada")] }
            Store.empty).2).2.students :=
  studentsView_double_create [("name", WireValue.str "Ada")] Store.empty
    { name := "Ada" } rfl

/-- C8: the GET path has no side effects: after a GET request the persisted
store equals the store before it. -/
theorem studentsView_get_pure (d : WireData) (db : Store) :
    (studentsView { method := "GET", data := d } db).2 = db := by
  simp [studentsView]

/-- C9: the handler is stateless and deterministic per request: two
invocations with the same method and body against the same store state
produce the same response and the same resulting store. -/
theorem studentsView_deterministic (r1 r2 : Request) (db : Store)
    (hm : r1.method = r2.method) (hd : r1.data = r2.data) :
    studentsView r1 db = studentsView r2 db := by
  have he : r1 = r2 := by
    cases r1; cases r2; simp_all
  rw [he]

/-- Witness for C9: two syntactically distinct but equal GET requests. -/
theorem studentsView_deterministic_witness :
    studentsView { method := "GET", data := [] } Store.empty =
      studentsView { method := "GET", data := ([] ++ []) } Store.empty :=
  studentsView_deterministic { method := "GET", data := [] }
    { method := "GET", data := ([] ++ []) } Store.empty (by decide) (by decide)

/-- C10: the declared accepted method set is exactly GET and POST, the body
of `studentsView` produces a response exactly when the request method is one
of the two, and on any other method it falls through, producing no response
and leaving the store unchanged. -/
theorem studentsView_method_dispatch :
    api_view_methods = ["GET", "POST"] ∧
    ∀ (req : Request) (db : Store),
      (((studentsView req db).1).isSome ↔ req.method ∈ api_view_methods) ∧
      (req.method ∉ api_view_methods → studentsView req db = (none, db)) := by
  refine ⟨rfl, fun req db => ?_⟩
  by_cases hg : req.method = "GET"
  · simp [studentsView, hg, api_view_methods]
  · by_cases hp : req.method = "POST"
    · constructor
      · cases hv : validateAndBind req.data <;>
          simp [studentsView, hg, hp, hv, api_view_methods]
      · intro hmem
        exact absurd (by simp [api_view_methods, hp]) hmem
    · simp [studentsView, hg, hp, api_view_methods]

/-- Witness for C10: a DELETE request produces no response value. -/
theorem studentsView_method_dispatch_witness :
    studentsView { method := "DELETE", data := [] } Store.empty = (none, Store.empty) :=
  (studentsView_method_dispatch.2 { method := "DELETE", data := [] } Store.empty).2
    (by decide)
